import Mathlib

/-!
Verification of the polaris-ext attention-tracking extension.

Shallow embedding of the session tracker, durable queue, sync client,
realtime-channel backoff and the video-to-chapter matcher, translated from
`src/background/background.js`, `src/utils/storage.js`, the API client and
the websocket client.  External browser APIs (chrome.storage, chrome.tabs,
fetch, URL parsing) are modelled as explicit inputs; timestamps are natural
numbers of milliseconds.
-/

namespace PolarisExt

/-- Maximum session duration cap in seconds (`background.js`, line 337). -/
def MAX_SESSION_DURATION_SECONDS : Nat := 60

/-- A finalized tracking record, the fields of the `logEntry` object built in
`finalizeCurrentSession` that the claims talk about. -/
structure LogEntry where
  domain : String
  duration_seconds : Nat
  tab_switches : Nat
  is_active : Bool
deriving Repr, DecidableEq

/-- The module-level mutable state of the service worker
(`background.js`, lines 40-51). -/
structure TrackerState where
  activeTabId : Option Nat
  activeTabDomain : String
  sessionStart : Option Nat
  tabSwitchCount : Nat
  isWindowFocused : Bool
  isUserActive : Bool
  isFinalizing : Bool
  currentPageTitle : Option String
  ytTabClassifications : List (Nat × String)
deriving Repr, DecidableEq

/-- `finalizeCurrentSession` (`background.js`, lines 339-418).  Returns the
updated state together with the record emitted, if any.  The send-or-enqueue
decision and the live relay are downstream of the returned record and do not
affect it. -/
def finalizeCurrentSession (st : TrackerState) (now : Nat) :
    TrackerState × Option LogEntry :=
  match st.sessionStart with
  | none => (st, none)
  | some start =>
    if st.activeTabDomain = "" ∨ st.isFinalizing = true then (st, none)
    else
      let duration := (now - start) / 1000
      if duration < 1 then (st, none)
      else
        let capped :=
          if MAX_SESSION_DURATION_SECONDS < duration
          then MAX_SESSION_DURATION_SECONDS else duration
        ({ st with sessionStart := some now, tabSwitchCount := 0 },
         some { domain := st.activeTabDomain,
                duration_seconds := capped,
                tab_switches := st.tabSwitchCount,
                is_active := st.isWindowFocused })

/-- `pauseTracking` (`background.js`, lines 420-425): finalize, then clear the
session start. -/
def pauseTracking (st : TrackerState) (now : Nat) :
    TrackerState × Option LogEntry :=
  let res := finalizeCurrentSession st now
  ({ res.1 with sessionStart := none }, res.2)

/-- `resumeTracking` (`background.js`, lines 427-433). -/
def resumeTracking (st : TrackerState) (now : Nat) : TrackerState :=
  if st.isWindowFocused = true ∧ st.activeTabId ≠ none ∧ st.sessionStart = none
  then { st with sessionStart := some now }
  else st

/-- The three states delivered by `chrome.idle.onStateChanged`. -/
inductive IdleSignal
  | active
  | idle
  | locked
deriving Repr, DecidableEq

/-- The `chrome.idle.onStateChanged` listener (`background.js`, lines
224-238): `active` resumes, `idle` and `locked` both pause. -/
def onIdleStateChanged (st : TrackerState) (s : IdleSignal) (now : Nat) :
    TrackerState × Option LogEntry :=
  match s with
  | .active => (resumeTracking { st with isUserActive := true } now, none)
  | .idle => pauseTracking { st with isUserActive := false } now
  | .locked => pauseTracking { st with isUserActive := false } now

/-- The `_session` object written by `saveSessionState` and read back by
`restoreSessionState` (`background.js`, lines 54-80). -/
structure PersistedSession where
  tabId : Option Nat
  domain : String
  start : Option Nat
  title : Option String
  tabSwitches : Nat
  ytTabClassifications : List (Nat × String)
deriving Repr, DecidableEq

/-- `restoreSessionState` (`background.js`, lines 68-80). -/
def restoreSessionState (st : TrackerState) (p : Option PersistedSession) :
    TrackerState :=
  match p with
  | none => st
  | some s =>
    { st with
      activeTabId := s.tabId
      activeTabDomain := s.domain
      sessionStart := s.start
      currentPageTitle := s.title
      tabSwitchCount := s.tabSwitches
      ytTabClassifications := s.ytTabClassifications }

/-- The currently active tab as returned by `chrome.tabs.query` in `init`.
URL parsing and `sanitizeUrl` are browser-side; their results are carried as
fields: `urlTrackable` is `tab.url && !tab.url.startsWith('chrome://')`,
`hostname` is `new URL(tab.url).hostname.toLowerCase()`, and `domain` is
`sanitizeUrl(tab.url)`. -/
structure QueriedTab where
  id : Nat
  urlTrackable : Bool
  hostname : String
  domain : String
deriving Repr, DecidableEq

/-- The session-validation part of `init` (`background.js`, lines 914-958):
first the stale-session discard, then the check that the persisted state
matches the current active tab.  Returns the new state and every record
emitted during the check. -/
def initSessionCheck (st0 : TrackerState) (now : Nat)
    (tab : Option QueriedTab) : TrackerState × List LogEntry :=
  let st :=
    match st0.sessionStart with
    | some start =>
      if MAX_SESSION_DURATION_SECONDS * 1000 < now - start then
        { st0 with sessionStart := none, activeTabId := none,
                   activeTabDomain := "", currentPageTitle := none }
      else st0
    | none => st0
  match tab with
  | none => (st, [])
  | some t =>
    if t.urlTrackable = false then (st, [])
    else if t.hostname = "127.0.0.1" ∨ t.hostname = "localhost" ∨
            t.hostname = "0.0.0.0" then
      ({ st with activeTabId := none, activeTabDomain := "",
                 sessionStart := none, currentPageTitle := none }, [])
    else if st.activeTabId = none then
      ({ st with activeTabId := some t.id, activeTabDomain := t.domain,
                 sessionStart := some now }, [])
    else if st.activeTabId ≠ some t.id ∨ t.domain ≠ st.activeTabDomain then
      let res := finalizeCurrentSession st now
      ({ res.1 with activeTabId := some t.id, activeTabDomain := t.domain,
                    sessionStart := some now, currentPageTitle := none },
       res.2.toList)
    else (st, [])

/-- Maximum capacity of the durable offline queue
(`storage.js`, line 11). -/
def MAX_QUEUE_SIZE : Nat := 500

/-- A queue element: the record plus the `queued_at` stamp added by
`enqueue` (`storage.js`, lines 20-23). -/
structure QueuedRecord where
  entry : LogEntry
  queued_at : Nat
deriving Repr, DecidableEq

/-- `enqueue` (`storage.js`, lines 16-31): append the stamped record, then
trim the oldest entries if the queue exceeds capacity. -/
def enqueue (q : List QueuedRecord) (e : LogEntry) (queuedAt : Nat) :
    List QueuedRecord :=
  let q1 := q ++ [⟨e, queuedAt⟩]
  if MAX_QUEUE_SIZE < q1.length then q1.drop (q1.length - MAX_QUEUE_SIZE)
  else q1

/-- `clearQueue` (`storage.js`, lines 44-46): replaces the queue with the
empty list. -/
def clearQueue : List QueuedRecord := []

/-- `dequeue` (`storage.js`, lines 52-57): remove the first `count` entries.
Imported by `background.js` but never called by `flushOfflineQueue`. -/
def dequeue (q : List QueuedRecord) (count : Nat) : List QueuedRecord :=
  q.drop count

/-- Outcome of one `sendBatchLogs` call as observed by
`flushOfflineQueue`: either the call threw (network error or non-2xx after
the retry loop), or it resolved to a parsed `body` carrying
`ingested`. -/
inductive BatchOutcome
  | failure
  | success (ingested : Nat)
deriving Repr, DecidableEq

/-- `flushOfflineQueue` (`background.js`, lines 440-458), as a function of
the queue snapshot, the authentication check and the batch-call outcome;
returns the queue contents after the call. -/
def flushOfflineQueue (q : List QueuedRecord) (authed : Bool)
    (outcome : BatchOutcome) : List QueuedRecord :=
  if q.length = 0 then q
  else if authed = false then q
  else
    match outcome with
    | .failure => q
    | .success ingested => if 0 < ingested then clearQueue else q

/-- Outcome of a single `fetch` inside `apiRequest`: a 2xx response, a
non-2xx response with its status code, or a rejected promise (network
error). -/
inductive FetchOutcome
  | ok
  | status (code : Nat)
  | thrown
deriving Repr, DecidableEq

/-- Result of `apiRequest`, tagged with the number of fetches performed.
`noAttempt` is the fall-through return when the loop body never runs
(`retries = 0`). -/
inductive ApiOutcome
  | success (attempts : Nat)
  | authError (code : Nat) (attempts : Nat)
  | apiError (code : Nat) (attempts : Nat)
  | netError (attempts : Nat)
  | noAttempt
deriving Repr, DecidableEq

/-- The retry loop of `apiRequest` (API client, lines 35-62).  `attempt` is
the loop counter and `remaining = retries - attempt` the iterations left.
Auth errors (401/403) are thrown inside the `try` block and therefore land
in the same loop's `catch`, which retries them unless this was the last
attempt; 5xx statuses retry via `continue`; other statuses and network
errors are thrown and likewise retried by the `catch` until the last
attempt. -/
def apiRequestGo (responses : Nat → FetchOutcome) (retries : Nat) :
    Nat → Nat → ApiOutcome
  | _, 0 => ApiOutcome.noAttempt
  | attempt, remaining + 1 =>
    match responses attempt with
    | .ok => ApiOutcome.success (attempt + 1)
    | .thrown =>
      if attempt = retries - 1 then ApiOutcome.netError (attempt + 1)
      else apiRequestGo responses retries (attempt + 1) remaining
    | .status code =>
      if code = 401 ∨ code = 403 then
        if attempt = retries - 1 then ApiOutcome.authError code (attempt + 1)
        else apiRequestGo responses retries (attempt + 1) remaining
      else if 500 ≤ code ∧ attempt < retries - 1 then
        apiRequestGo responses retries (attempt + 1) remaining
      else if attempt = retries - 1 then ApiOutcome.apiError code (attempt + 1)
      else apiRequestGo responses retries (attempt + 1) remaining

/-- `apiRequest` (API client, lines 23-63): run the retry loop from attempt
zero.  The source's default retry count is 3. -/
def apiRequest (responses : Nat → FetchOutcome) (retries : Nat) : ApiOutcome :=
  apiRequestGo responses retries 0 retries

/-- Maximum reconnection attempts of the websocket client
(websocket client, line 11). -/
def MAX_RECONNECT_ATTEMPTS : Nat := 10

/-- Base reconnection delay in milliseconds (websocket client, line 12). -/
def RECONNECT_BASE_DELAY : Nat := 2000

/-- The websocket client's module state relevant to reconnection: the
`reconnectAttempts` counter. -/
structure WsState where
  reconnectAttempts : Nat
deriving Repr, DecidableEq

/-- The `socket.onopen` handler (websocket client, lines 44-52) resets the
attempt counter to zero. -/
def onOpen (st : WsState) : WsState :=
  { st with reconnectAttempts := 0 }

/-- `attemptReconnect` (websocket client, lines 90-101): if the counter has
reached the maximum, do nothing; otherwise schedule a reconnect after
`RECONNECT_BASE_DELAY * 2 ^ reconnectAttempts` and increment the counter.
Returns the scheduled delay and the new state, or `none` when no reconnect
is scheduled. -/
def attemptReconnect (st : WsState) : Option (Nat × WsState) :=
  if MAX_RECONNECT_ATTEMPTS ≤ st.reconnectAttempts then none
  else some (RECONNECT_BASE_DELAY * 2 ^ st.reconnectAttempts,
             { st with reconnectAttempts := st.reconnectAttempts + 1 })

/-- Character-list test whether the first list is a leading segment of the
second; helper for substring containment. -/
def isPrefixCL : List Char → List Char → Bool
  | [], _ => true
  | _ :: _, [] => false
  | a :: as, b :: bs => a == b && isPrefixCL as bs

/-- Character-list substring search: does the needle occur in the
haystack?  An empty needle always occurs, as in JS. -/
def containsSubCL : List Char → List Char → Bool
  | [], needle => needle.isEmpty
  | c :: rest, needle =>
    isPrefixCL needle (c :: rest) || containsSubCL rest needle

/-- JS `a.includes(b)` on strings: substring containment. -/
def containsSub (s sub : String) : Bool :=
  containsSubCL s.data sub.data

/-- The symmetric containment test `a.includes(b) || b.includes(a)` used
throughout the matcher's word comparisons. -/
def crossContains (a b : String) : Bool :=
  containsSub a b || containsSub b a

/-- JS `s.toLowerCase()`, mapping `Char.toLower` over the characters. -/
def toLowerStr (s : String) : String :=
  String.mk (s.data.map Char.toLower)

/-- Splitting helper: cut the character list at every whitespace
character, like `String.split Char.isWhitespace`. -/
def splitWsAux : List Char → List Char → List String
  | [], acc => [String.mk acc.reverse]
  | c :: cs, acc =>
    if c.isWhitespace then String.mk acc.reverse :: splitWsAux cs []
    else splitWsAux cs (c :: acc)

/-- Split a string at whitespace characters. -/
def splitWhitespace (s : String) : List String :=
  splitWsAux s.data []

/-- JS `s.split(/\s+/).filter(w => w.length > 2)`: whitespace-separated
words longer than two characters (the length-filter also discards the
empty fragments a regex split would merge away). -/
def wordsLonger2 (s : String) : List String :=
  (splitWhitespace s).filter (fun w => 2 < w.length)

/-- The pending-chapter assignment returned by the
`/api/ai/pending-chapter` endpoint. -/
structure PendingChapter where
  plan_id : Nat
  chapter_index : Nat
  chapter_title : String
deriving Repr, DecidableEq

/-- Outcome of the pending-chapter fetch in STEP 1 of
`matchVideoToChapter`: the fetch threw, the response was not ok, the
response was ok with `pending` null, or it reported an outstanding
assignment. -/
inductive PendingOutcome
  | error
  | notOk
  | okNone
  | okPending (p : PendingChapter)
deriving Repr, DecidableEq

/-- Outcome of the set-video POST issued for a pending assignment: ok
response, non-ok response (e.g. a completed-chapter lock), or a thrown
network error (which the surrounding `catch` turns into a fall-through to
STEP 2). -/
inductive SetVideoOutcome
  | ok
  | notOk
  | thrown
deriving Repr, DecidableEq

/-- One chapter of a study plan's progress payload, with the fields the
matcher reads. -/
structure ChapterInfo where
  chapter_index : Nat
  chapter_title : String
  keyword_importance : List (String × ℚ)
  is_completed : Bool
deriving Repr, DecidableEq

/-- One study plan, together with the outcome of its progress fetch
(`progressOk` is `progressResponse.ok`; the matcher skips the plan when it
is false). -/
structure PlanInfo where
  id : Nat
  title : String
  goal : String
  progressOk : Bool
  chapters : List ChapterInfo
deriving Repr, DecidableEq

/-- Outcome of the `/api/ai/study-plans` fetch: non-ok response, or the
parsed list of plans. -/
inductive PlansOutcome
  | notOk
  | okPlans (plans : List PlanInfo)
deriving Repr, DecidableEq

/-- The `videoData` message sent by the YouTube content script. -/
structure VideoData where
  classification : String
  title : String
  channel_name : String
  video_url : String
  videoId : String
  duration_seconds : Nat
deriving Repr, DecidableEq

/-- The chapter-match object returned by `matchVideoToChapter`. -/
structure MatchResult where
  plan_id : Nat
  chapter_index : Nat
  chapter_title : String
  matched : Bool
  match_type : String
deriving Repr, DecidableEq

/-- Network side effects of one matcher call, in issue order. -/
inductive MatchEffect
  | fetchPending
  | setVideo (plan_id chapter_index : Nat)
  | fetchPlans
  | fetchProgress (plan_id : Nat)
deriving Repr, DecidableEq

/-- The remote responses observed during one matcher call, modelling the
backend as an oracle. -/
structure MatcherEnv where
  hasToken : Bool
  pending : PendingOutcome
  pendingSetVideo : SetVideoOutcome
  plans : PlansOutcome
deriving Repr, DecidableEq

/-- The running best candidate of the scored stage
(`globalBestMatch`). -/
structure BestMatch where
  plan : PlanInfo
  chapter : ChapterInfo
  percentage : ℚ
  isRewatch : Bool
deriving Repr, DecidableEq

/-- Per-chapter match percentage (`background.js`, lines 757-808):
importance-weighted keyword matching when `keyword_importance` is present,
otherwise plain chapter-title word overlap, in both cases superseded by the
direct chapter-title overlap when that is larger.  JS floating point is
modelled with exact rationals. -/
def chapterMatchPercentage (videoTitleWords : List String)
    (channelName : String) (chapter : ChapterInfo) : ℚ :=
  let chapterTitle := toLowerStr chapter.chapter_title
  let kw := chapter.keyword_importance
  let base : ℚ :=
    if kw.isEmpty = false then
      let totalImportance := (kw.map Prod.snd).sum
      let matchedImportance :=
        ((kw.filter (fun ki =>
          let keywordLower := toLowerStr ki.1
          let titleMatch := videoTitleWords.any
            (fun w => crossContains w keywordLower)
          let channelMatch := !channelName.data.isEmpty &&
            crossContains channelName keywordLower
          titleMatch || channelMatch)).map Prod.snd).sum
      if 0 < totalImportance then matchedImportance / totalImportance * 100
      else 0
    else
      let chapterWords := wordsLonger2 chapterTitle
      let commonWords := videoTitleWords.filter
        (fun w => chapterWords.any (fun cw => crossContains cw w))
      if chapterWords.isEmpty = false then
        (commonWords.length : ℚ) / chapterWords.length * 100
      else 0
  let chapterTitleWords := wordsLonger2 chapterTitle
  let directCommon := videoTitleWords.filter
    (fun w => chapterTitleWords.any (fun cw => crossContains cw w))
  let directPct : ℚ :=
    if chapterTitleWords.isEmpty = false then
      (directCommon.length : ℚ) / chapterTitleWords.length * 100
    else 0
  if base < directPct then directPct else base

/-- Tier-specific acceptance threshold (`background.js`, lines 762-764). -/
def chapterThreshold (planRelevant : Bool) (isIncomplete : Bool) : ℚ :=
  let baseThreshold : ℚ := if isIncomplete then 20 else 35
  if planRelevant then max (baseThreshold - 10) 10 else baseThreshold

/-- One iteration of the plan loop of STEP 2 (`background.js`, lines
730-846): plan-relevance check, the chapter loop updating the running best
candidate, and the first-incomplete-chapter fallback for relevant plans. -/
def evalPlan (videoTitleWords : List String) (channelName : String)
    (acc : Option BestMatch × ℚ) (plan : PlanInfo) : Option BestMatch × ℚ :=
  let planText := toLowerStr plan.title ++ " " ++ toLowerStr plan.goal
  let planWords := wordsLonger2 planText
  let planMatchCount := (videoTitleWords.filter
    (fun vw => planWords.any (fun pw => crossContains pw vw))).length
  let planRelevant := decide (1 ≤ planMatchCount)
  if plan.progressOk = false then acc
  else
    let acc1 := plan.chapters.foldl (fun acc2 chapter =>
      let isIncomplete := !chapter.is_completed
      let threshold := chapterThreshold planRelevant isIncomplete
      let pct := chapterMatchPercentage videoTitleWords channelName chapter
      if threshold ≤ pct then
        let score := pct + (if isIncomplete then (50 : ℚ) else 0) +
          (if planRelevant then (20 : ℚ) else 0)
        if acc2.2 < score then
          (some ⟨plan, chapter, pct, chapter.is_completed⟩, score)
        else acc2
      else acc2) acc
    if acc1.1 = none ∧ planRelevant = true then
      match plan.chapters.find? (fun c => !c.is_completed) with
      | some firstIncomplete => (some ⟨plan, firstIncomplete, 0, false⟩, 30)
      | none => acc1
    else acc1

/-- STEP 2 and STEP 3 of `matchVideoToChapter` (`background.js`, lines
704-884): fetch the study plans, loop over them scoring chapters, then
apply the best match (issuing its set-video call) or return no match.
`pre` is the effect trace accumulated by STEP 1. -/
def scoredMatchStage (videoData : VideoData) (plansOut : PlansOutcome)
    (pre : List MatchEffect) : Option MatchResult × List MatchEffect :=
  match plansOut with
  | .notOk => (none, pre ++ [MatchEffect.fetchPlans])
  | .okPlans plans =>
    if plans.isEmpty then (none, pre ++ [MatchEffect.fetchPlans])
    else
      let videoTitleWords := wordsLonger2 (toLowerStr videoData.title)
      let channelName := toLowerStr videoData.channel_name
      let best := (plans.foldl (evalPlan videoTitleWords channelName)
        (none, 0)).1
      let progressEffects := plans.map
        (fun p => MatchEffect.fetchProgress p.id)
      match best with
      | some b =>
        (some ⟨b.plan.id, b.chapter.chapter_index, b.chapter.chapter_title,
               true, if b.isRewatch then "rewatch" else "keyword"⟩,
         pre ++ [MatchEffect.fetchPlans] ++ progressEffects ++
           [MatchEffect.setVideo b.plan.id b.chapter.chapter_index])
      | none => (none, pre ++ [MatchEffect.fetchPlans] ++ progressEffects)

/-- `matchVideoToChapter` (`background.js`, lines 634-889).  Returns the
match result and the trace of network calls issued.  A `distracting`
classification or a missing auth token short-circuits with no calls;
otherwise STEP 1 consults the pending-chapter endpoint and, when an
assignment is outstanding, issues the set-video call and returns a
`pending` match on an ok response or a `pending_rewatch` match on a non-ok
response; a thrown set-video call is swallowed by the STEP 1 `catch` and
execution falls through to the scored stage, as it does when no assignment
is outstanding. -/
def matchVideoToChapter (videoData : VideoData) (env : MatcherEnv) :
    Option MatchResult × List MatchEffect :=
  if videoData.classification = "distracting" then (none, [])
  else if env.hasToken = false then (none, [])
  else
    match env.pending with
    | .okPending p =>
      match env.pendingSetVideo with
      | .ok =>
        (some ⟨p.plan_id, p.chapter_index, p.chapter_title, true, "pending"⟩,
         [MatchEffect.fetchPending,
          MatchEffect.setVideo p.plan_id p.chapter_index])
      | .notOk =>
        (some ⟨p.plan_id, p.chapter_index, p.chapter_title, true,
               "pending_rewatch"⟩,
         [MatchEffect.fetchPending,
          MatchEffect.setVideo p.plan_id p.chapter_index])
      | .thrown =>
        scoredMatchStage videoData env.plans
          [MatchEffect.fetchPending,
           MatchEffect.setVideo p.plan_id p.chapter_index]
    | _ => scoredMatchStage videoData env.plans [MatchEffect.fetchPending]

/-- C1: every record emitted by a finalize of an open session has
`duration_seconds` at most `MAX_SESSION_DURATION_SECONDS`, and whenever the
raw elapsed wall-clock time in whole seconds exceeds that bound the record
is emitted with `duration_seconds` exactly equal to the bound, never the
raw elapsed value. -/
theorem c1_finalize_duration_clamped :
    (∀ (st : TrackerState) (now : Nat) (r : LogEntry),
      (finalizeCurrentSession st now).2 = some r →
      r.duration_seconds ≤ MAX_SESSION_DURATION_SECONDS) ∧
    (∀ (st : TrackerState) (start now : Nat),
      st.sessionStart = some start →
      st.activeTabDomain ≠ "" →
      st.isFinalizing = false →
      MAX_SESSION_DURATION_SECONDS < (now - start) / 1000 →
      finalizeCurrentSession st now =
        ({ st with sessionStart := some now, tabSwitchCount := 0 },
         some ⟨st.activeTabDomain, MAX_SESSION_DURATION_SECONDS,
               st.tabSwitchCount, st.isWindowFocused⟩)) := by
  constructor
  · intro st now r h
    cases hs : st.sessionStart with
    | none => simp [finalizeCurrentSession, hs] at h
    | some start =>
      by_cases hg : st.activeTabDomain = "" ∨ st.isFinalizing = true
      · simp [finalizeCurrentSession, hs, hg] at h
      · by_cases hd : (now - start) / 1000 < 1
        · simp [finalizeCurrentSession, hs, hg, hd] at h
        · simp only [finalizeCurrentSession, hs, if_neg hg, if_neg hd,
            Option.some.injEq] at h
          subst h
          by_cases hc : MAX_SESSION_DURATION_SECONDS < (now - start) / 1000
          · simp [if_pos hc]
          · simp only [if_neg hc]
            omega
  · intro st start now hs hdom hfin hgt
    have hg : ¬ (st.activeTabDomain = "" ∨ st.isFinalizing = true) := by
      simp [hdom, hfin]
    have hd : ¬ ((now - start) / 1000 < 1) := by
      have : (0 : Nat) < MAX_SESSION_DURATION_SECONDS := by decide
      omega
    simp [finalizeCurrentSession, hs, hg, hd, hgt]

/-- Concrete state used to witness C1. -/
def stW1 : TrackerState :=
  ⟨some 1, "example.com", some 0, 3, true, true, false, some "t", []⟩

/-- C1 witness: a session started at 0 and finalized at 100000 ms has raw
elapsed 100 s and is emitted capped at 60 s. -/
theorem c1_witness :
    finalizeCurrentSession stW1 100000 =
      ({ stW1 with sessionStart := some 100000, tabSwitchCount := 0 },
       some ⟨"example.com", 60, 3, true⟩) :=
  c1_finalize_duration_clamped.2 stW1 0 100000 rfl (by decide) rfl (by decide)

/-- C9: a second finalize issued within the same second after a completed,
record-emitting finalize emits nothing (so at most one non-zero-duration
record is emitted in total), and a finalize entered while another is in
flight (`isFinalizing` set) is a no-op. -/
theorem c9_finalize_idempotent :
    (∀ (st : TrackerState) (now now' : Nat) (st1 : TrackerState)
       (r : LogEntry),
      now' ≤ now + 999 →
      finalizeCurrentSession st now = (st1, some r) →
      (finalizeCurrentSession st1 now').2 = none) ∧
    (∀ (st : TrackerState) (now : Nat),
      st.isFinalizing = true → finalizeCurrentSession st now = (st, none)) := by
  constructor
  · intro st now now' st1 r hle heq
    cases hs : st.sessionStart with
    | none => simp [finalizeCurrentSession, hs] at heq
    | some start =>
      by_cases hg : st.activeTabDomain = "" ∨ st.isFinalizing = true
      · simp [finalizeCurrentSession, hs, hg] at heq
      · by_cases hd : (now - start) / 1000 < 1
        · simp [finalizeCurrentSession, hs, hg, hd] at heq
        · simp only [finalizeCurrentSession, hs, if_neg hg, if_neg hd,
            Prod.mk.injEq, Option.some.injEq] at heq
          obtain ⟨h1, -⟩ := heq
          subst h1
          simp only [not_or, Bool.not_eq_true] at hg
          have hd2 : (now' - now) / 1000 < 1 := by omega
          simp [finalizeCurrentSession, hg.1, hg.2, hd2]
  · intro st now hfin
    cases hs : st.sessionStart with
    | none => simp [finalizeCurrentSession, hs]
    | some start => simp [finalizeCurrentSession, hs, hfin]

/-- Concrete open-session state used to witness C9. -/
def stW9 : TrackerState :=
  ⟨some 1, "example.com", some 0, 3, true, true, false, some "t", []⟩

/-- Concrete mid-flight state used to witness C9. -/
def stW9fin : TrackerState :=
  ⟨some 1, "example.com", some 0, 3, true, true, true, some "t", []⟩

/-- C9 witness: finalizing at 5000 ms emits a 5-second record, a repeat at
5500 ms emits nothing; a call with `isFinalizing` set leaves the state
untouched and emits nothing. -/
theorem c9_witness :
    (finalizeCurrentSession ((finalizeCurrentSession stW9 5000).1) 5500).2 =
      none ∧
    finalizeCurrentSession stW9fin 1000 = (stW9fin, none) :=
  ⟨c9_finalize_idempotent.1 stW9 5000 5500 _ ⟨"example.com", 5, 3, true⟩
      (by decide) (by decide),
   c9_finalize_idempotent.2 stW9fin 1000 rfl⟩

/-- Concrete state for C6: the active tab is classified as productive video
content and a session is open. -/
def st6 : TrackerState :=
  ⟨some 1, "youtube.com", some 0, 0, true, true, false, some "vid",
   [(1, "productive")]⟩

/-- C6 counterexample: with the active tab classified "productive" and a
session open since 0, a `UserIdleChanged` transition to plain `idle` at
30000 ms pauses the session (`sessionStart` becomes `none`) and finalizes
it, emitting a 30-second record — refuting the claim that plain
input-inactivity does not finalize or pause the session of a productive
video. -/
theorem c6_counterexample :
    st6.activeTabId = some 1 ∧
    st6.ytTabClassifications = [(1, "productive")] ∧
    st6.sessionStart = some 0 ∧
    (onIdleStateChanged st6 IdleSignal.idle 30000).1.sessionStart = none ∧
    (onIdleStateChanged st6 IdleSignal.idle 30000).2 =
      some ⟨"youtube.com", 30, 0, true⟩ :=
  ⟨rfl, rfl, rfl, rfl, rfl⟩

/-- C6 (amended): the idle listener treats `idle` exactly like `locked`:
both transitions pause and finalize the open session, regardless of the
resource's classification. -/
theorem c6_amended_idle_equals_locked (st : TrackerState) (now : Nat) :
    onIdleStateChanged st IdleSignal.idle now =
    onIdleStateChanged st IdleSignal.locked now := rfl

/-- C2: when the agent restarts and the persisted open session's elapsed
age exceeds the max-session bound, the startup session check emits no
record at all, and the resulting state no longer carries the stale session
start (it is either cleared or freshly opened at `now`). -/
theorem c2_stale_session_discarded :
    ∀ (base : TrackerState) (s : PersistedSession) (start now : Nat)
      (tab : Option QueriedTab),
      s.start = some start →
      MAX_SESSION_DURATION_SECONDS * 1000 < now - start →
      (initSessionCheck (restoreSessionState base (some s)) now tab).2 = [] ∧
      ((initSessionCheck (restoreSessionState base (some s)) now
          tab).1.sessionStart = none ∨
       (initSessionCheck (restoreSessionState base (some s)) now
          tab).1.sessionStart = some now) := by
  intro base s start now tab hs hgt
  cases tab with
  | none => simp [initSessionCheck, restoreSessionState, hs, hgt]
  | some t =>
    by_cases htr : t.urlTrackable = false
    · simp [initSessionCheck, restoreSessionState, hs, hgt, htr]
    · by_cases hloc : t.hostname = "127.0.0.1" ∨ t.hostname = "localhost" ∨
        t.hostname = "0.0.0.0"
      · simp [initSessionCheck, restoreSessionState, hs, hgt, htr, hloc]
      · simp [initSessionCheck, restoreSessionState, hs, hgt, htr, hloc]

/-- Base state used to witness C2 (fresh worker before restore). -/
def baseState : TrackerState := ⟨none, "", none, 0, true, true, false, none, []⟩

/-- Persisted session used to witness C2: opened at time 0. -/
def persisted2 : PersistedSession :=
  ⟨some 7, "example.com", some 0, some "t", 2, []⟩

/-- C2 witness: restoring a session persisted at 0 and running the startup
check at 300000 ms (5 minutes later, bound 60 s) emits nothing and drops
the stale start. -/
theorem c2_witness :
    (initSessionCheck (restoreSessionState baseState (some persisted2))
        300000 none).2 = [] ∧
    ((initSessionCheck (restoreSessionState baseState (some persisted2))
        300000 none).1.sessionStart = none ∨
     (initSessionCheck (restoreSessionState baseState (some persisted2))
        300000 none).1.sessionStart = some 300000) :=
  c2_stale_session_discarded baseState persisted2 0 300000 none rfl (by decide)

/-- C8: after every enqueue the queue holds at most `MAX_QUEUE_SIZE`
entries; the result is exactly the suffix of the appended list obtained by
dropping the oldest overflow entries, and the new record (with its stamp)
is the last element. -/
theorem c8_enqueue_bounded_evicts_oldest :
    ∀ (q : List QueuedRecord) (e : LogEntry) (t : Nat),
      (enqueue q e t).length ≤ MAX_QUEUE_SIZE ∧
      enqueue q e t =
        (q ++ [(⟨e, t⟩ : QueuedRecord)]).drop
          (q.length + 1 - MAX_QUEUE_SIZE) ∧
      (enqueue q e t).getLast? = some (⟨e, t⟩ : QueuedRecord) := by
  intro q e t
  have hM : MAX_QUEUE_SIZE = 500 := rfl
  have hlen : (q ++ [(⟨e, t⟩ : QueuedRecord)]).length = q.length + 1 := by
    simp
  unfold enqueue
  by_cases h : MAX_QUEUE_SIZE < (q ++ [(⟨e, t⟩ : QueuedRecord)]).length
  · rw [if_pos h]
    rw [hlen] at h ⊢
    have hk : q.length + 1 - MAX_QUEUE_SIZE ≤ q.length := by omega
    refine ⟨?_, rfl, ?_⟩
    · rw [List.length_drop, hlen]; omega
    · rw [List.drop_append_of_le_length hk]
      exact List.getLast?_concat _
  · rw [if_neg h]
    rw [hlen] at h
    have hz : q.length + 1 - MAX_QUEUE_SIZE = 0 := by omega
    refine ⟨?_, ?_, List.getLast?_concat _⟩
    · rw [hlen]; omega
    · rw [hz, List.drop_zero]

/-- First record of the two-element queue used for C3. -/
def rec3a : QueuedRecord := ⟨⟨"a.com", 10, 0, true⟩, 1⟩

/-- Second record of the two-element queue used for C3. -/
def rec3b : QueuedRecord := ⟨⟨"b.com", 20, 1, true⟩, 2⟩

/-- C3: the failure and full-acceptance cases behave as claimed, but on a
partial acceptance (`ingested = 1` of 2) `flushOfflineQueue` clears the
whole queue instead of removing only the accepted prefix — `dequeue`, the
storage helper that would implement prefix removal, would have retained the
second record. -/
theorem c3_partial_acceptance_clears_whole_queue :
    flushOfflineQueue [rec3a, rec3b] true BatchOutcome.failure =
      [rec3a, rec3b] ∧
    flushOfflineQueue [rec3a, rec3b] true (BatchOutcome.success 2) = [] ∧
    flushOfflineQueue [rec3a, rec3b] true (BatchOutcome.success 1) = [] ∧
    dequeue [rec3a, rec3b] 1 = [rec3b] :=
  ⟨rfl, rfl, rfl, rfl⟩

/-- C4: with every fetch answering HTTP 401 and the default retry count 3,
`apiRequest` performs all three fetches before surfacing the auth error
(the thrown auth error is caught by the same loop's catch and retried), and
a 401 followed by a 2xx on the second attempt even yields success — refuting
the claim that no further retry attempt happens after the first 401/403. -/
theorem c4_auth_errors_are_retried :
    apiRequest (fun _ => FetchOutcome.status 401) 3 =
      ApiOutcome.authError 401 3 ∧
    apiRequest (fun i => if i = 0 then FetchOutcome.status 401
      else FetchOutcome.ok) 3 = ApiOutcome.success 2 :=
  ⟨rfl, rfl⟩

/-- C7: consecutive scheduled reconnect delays are non-decreasing; after a
successful open (which resets the counter) the next scheduled delay is
exactly the base delay; and once the counter has reached
`MAX_RECONNECT_ATTEMPTS` no reconnect is scheduled. -/
theorem c7_reconnect_backoff :
    (∀ (st st1 st2 : WsState) (d1 d2 : Nat),
      attemptReconnect st = some (d1, st1) →
      attemptReconnect st1 = some (d2, st2) → d1 ≤ d2) ∧
    (∀ st : WsState,
      attemptReconnect (onOpen st) = some (RECONNECT_BASE_DELAY, ⟨1⟩)) ∧
    (∀ st : WsState, MAX_RECONNECT_ATTEMPTS ≤ st.reconnectAttempts →
      attemptReconnect st = none) := by
  refine ⟨?_, ?_, ?_⟩
  · intro st st1 st2 d1 d2 h1 h2
    unfold attemptReconnect at h1 h2
    split at h1
    · exact absurd h1 (by simp)
    · rw [Option.some.injEq, Prod.mk.injEq] at h1
      obtain ⟨hd1, hst1⟩ := h1
      split at h2
      · exact absurd h2 (by simp)
      · rw [Option.some.injEq, Prod.mk.injEq] at h2
        obtain ⟨hd2, -⟩ := h2
        subst hd1 hd2 hst1
        exact Nat.mul_le_mul_left _
          (Nat.pow_le_pow_right (by decide) (Nat.le_succ _))
  · intro st
    rfl
  · intro st h
    unfold attemptReconnect
    rw [if_pos h]

/-- C7 witness: from a fresh counter the first two scheduled delays are
2000 ms then 4000 ms (non-decreasing), and at counter 10 no reconnect is
scheduled. -/
theorem c7_witness :
    (2000 : Nat) ≤ 4000 ∧ attemptReconnect ⟨10⟩ = none :=
  ⟨c7_reconnect_backoff.1 ⟨0⟩ ⟨1⟩ ⟨2⟩ 2000 4000 (by decide) (by decide),
   c7_reconnect_backoff.2.2 ⟨10⟩ (by decide)⟩

/-- Video used for the C5 matcher scenarios: productive classification and
a title with high word overlap against the scored-stage chapter. -/
def vidC5 : VideoData :=
  ⟨"productive", "Binary Search Tree Traversal full course", "", "u", "id",
   600⟩

/-- Study plan used for the C5 matcher scenarios; its single incomplete
chapter "tree traversal" clears the scored-match threshold against
`vidC5`. -/
def planC5 : PlanInfo :=
  ⟨1, "data structures", "learn trees", true,
   [⟨0, "tree traversal", [], false⟩]⟩

/-- Environment for the C5 counterexample: an outstanding pending
assignment whose set-video POST throws a network error. -/
def envC5 : MatcherEnv :=
  ⟨true, PendingOutcome.okPending ⟨2, 3, "Pending Chapter"⟩,
   SetVideoOutcome.thrown, PlansOutcome.okPlans [planC5]⟩

unseal Rat.mul Rat.add Rat.sub Rat.inv in
/-- C5 counterexample: `vidC5` has an outstanding pending assignment to
chapter 3 of plan 2 and a chapter of plan 1 clearing the scored-match
threshold, yet because the pending set-video call throws, the STEP 1 catch
swallows the error and the matcher proceeds to the scored stage (the trace
shows the study-plans fetch) and returns a `keyword` match for the other
chapter — not the pending assignment. -/
theorem c5_counterexample :
    envC5.pending = PendingOutcome.okPending ⟨2, 3, "Pending Chapter"⟩ ∧
    matchVideoToChapter vidC5 envC5 =
      (some ⟨1, 0, "tree traversal", true, "keyword"⟩,
       [MatchEffect.fetchPending, MatchEffect.setVideo 2 3,
        MatchEffect.fetchPlans, MatchEffect.fetchProgress 1,
        MatchEffect.setVideo 1 0]) :=
  ⟨rfl, by decide⟩

/-- C5 (amended): whenever the video is not classified distracting, a token
is present, the pending-chapter endpoint reports an outstanding assignment
and the pending set-video call completes with an HTTP response (rather than
throwing), the matcher returns that pending assignment — `pending` on an ok
response, `pending_rewatch` otherwise — and never proceeds to the
scored-match stage, whatever the study plans contain. -/
theorem c5_amended_pending_tier_wins :
    ∀ (v : VideoData) (env : MatcherEnv) (p : PendingChapter),
      v.classification ≠ "distracting" →
      env.hasToken = true →
      env.pending = PendingOutcome.okPending p →
      env.pendingSetVideo ≠ SetVideoOutcome.thrown →
      matchVideoToChapter v env =
        (some ⟨p.plan_id, p.chapter_index, p.chapter_title, true,
           if env.pendingSetVideo = SetVideoOutcome.ok then "pending"
           else "pending_rewatch"⟩,
         [MatchEffect.fetchPending,
          MatchEffect.setVideo p.plan_id p.chapter_index]) := by
  intro v env p hcls htok hpend hsv
  unfold matchVideoToChapter
  rw [if_neg hcls]
  rw [htok]
  simp only [Bool.true_eq_false, if_false]
  rw [hpend]
  cases hsvo : env.pendingSetVideo with
  | ok => simp [hsvo]
  | notOk => simp [hsvo]
  | thrown => exact absurd hsvo hsv

/-- Environment for the C5 witness: same pending assignment, set-video call
answered ok, scored stage still containing a threshold-clearing chapter
that must be ignored. -/
def envC5ok : MatcherEnv :=
  ⟨true, PendingOutcome.okPending ⟨2, 3, "Pending Chapter"⟩,
   SetVideoOutcome.ok, PlansOutcome.okPlans [planC5]⟩

/-- C5 witness: with the pending set-video call answered ok, the matcher
returns the pending assignment and issues no scored-stage calls. -/
theorem c5_witness :
    matchVideoToChapter vidC5 envC5ok =
      (some ⟨2, 3, "Pending Chapter", true,
         if envC5ok.pendingSetVideo = SetVideoOutcome.ok then "pending"
         else "pending_rewatch"⟩,
       [MatchEffect.fetchPending, MatchEffect.setVideo 2 3]) :=
  c5_amended_pending_tier_wins vidC5 envC5ok ⟨2, 3, "Pending Chapter"⟩
    (by decide) rfl rfl (by decide)

/-- C10: a video classified "distracting" is never matched: the matcher
returns no match and issues no network call at all — no pending-assignment
query, no chapter scoring, no set-video call. -/
theorem c10_distracting_never_matched :
    ∀ (v : VideoData) (env : MatcherEnv),
      v.classification = "distracting" →
      matchVideoToChapter v env = (none, []) := by
  intro v env h
  unfold matchVideoToChapter
  rw [if_pos h]

/-- Distracting video used to witness C10. -/
def vidC10 : VideoData := ⟨"distracting", "Top 10 memes", "", "u", "m", 300⟩

/-- Environment used to witness C10: pending assignment and matching plans
exist, yet the matcher must not touch them. -/
def envC10 : MatcherEnv :=
  ⟨true, PendingOutcome.okPending ⟨2, 3, "Pending Chapter"⟩,
   SetVideoOutcome.ok, PlansOutcome.okPlans [planC5]⟩

/-- C10 witness: the distracting video yields no match and an empty call
trace even with a pending assignment and plans available. -/
theorem c10_witness : matchVideoToChapter vidC10 envC10 = (none, []) :=
  c10_distracting_never_matched vidC10 envC10 rfl

end PolarisExt
